import Mathlib

/-!
Verification development for the RSS_scraping aggregation-and-report pipeline
(`app/services/rss_scrapping.py`, `app/services/blackglass_report.py`,
`app/api/endpoints.py`).

Modelling conventions:
* Python `str` is modelled as `List Char` (`Str`), so that all string
  operations reduce structurally.
* Python article dicts become the `Article` structure; keys that only exist
  after an assignment (e.g. `relevance_score`) are `Option` fields, `none`
  meaning "key absent".
* Float arithmetic is modelled over `ℚ`; Python's `int(...)` conversion is
  `pyInt` (truncation toward zero, `Int.tdiv`).
* `datetime` values are modelled at day granularity: an article's parseable
  publish date is `some p : Option Int` (`none` = `fromisoformat` raises),
  and `(now - published).days` becomes `nowDays - p`.
* Network and feed parsing (httpx + feedparser) are external; a fetch attempt
  is an oracle `Option (List Article)` (`none` = request raises / non-2xx).
-/

namespace RSSScraping

/-- Python `str`, modelled as its list of characters. -/
abbrev Str := List Char

/-- Python `str.lower()` (ASCII-level model). -/
def pyLower (s : Str) : Str := s.map Char.toLower

/-- Python `needle in hay` substring membership test. -/
def pyContains (hay needle : Str) : Bool := decide (needle <:+: hay)

/-- Helper for `pySplitWs`: accumulates the current word (reversed). -/
def splitWsAux : Str → Str → List Str
  | [], acc => if acc.isEmpty then [] else [acc.reverse]
  | c :: rest, acc =>
    if c.isWhitespace then
      (if acc.isEmpty then [] else [acc.reverse]) ++ splitWsAux rest []
    else splitWsAux rest (c :: acc)

/-- Python `str.split()` with no argument: split on whitespace runs,
dropping empty tokens. -/
def pySplitWs (s : Str) : List Str := splitWsAux s []

/-- Python `int(q)` for a rational operand: truncation toward zero. -/
def pyInt (q : ℚ) : Int := q.num.tdiv q.den

/-- Python truthiness of an optional string: `None` and `""` are falsy. -/
def optStr : Option Str → Option Str
  | some [] => none
  | some l => some l
  | none => none

/-- One article dict as produced by `fetch_feed` and enriched downstream.
Fields that the code only assigns later (`source_name`, `publisher`,
`keywords_matched`, `location_match`, `relevance_score`) are `Option`s with
`none` meaning the key is absent from the dict. -/
structure Article where
  title : Str
  summary : Str
  source : Str
  link : Str := []
  /-- Parsed publish date, in days; `none` models a `published` string on
  which `datetime.fromisoformat` raises. -/
  published : Option Int := none
  source_name : Option Str := none
  publisher : Option Str := none
  keywords_matched : Option (List Str) := none
  location_match : Option (Option Bool) := none
  relevance_score : Option Int := none
deriving Repr, DecidableEq, Inhabited

/-! ## Relevance scoring (`search_feeds`, rss_scrapping.py lines 317-380) -/

/-- Python `article_text = article["title"].lower() + " " + article["summary"].lower()`. -/
def articleText (a : Article) : Str := pyLower a.title ++ [' '] ++ pyLower a.summary

/-- Python `keywords = query.lower().split()`. -/
def queryKeywords (query : Str) : List Str := pySplitWs (pyLower query)

/-- Python `keywords_matched = [kw for kw in keywords if kw in article_text]`. -/
def keywordsMatched (keywords : List Str) (text : Str) : List Str :=
  keywords.filter (fun kw => pyContains text kw)

/-- The `high_credibility_sources` list inside `search_feeds`. -/
def highCredSearchSources : List Str :=
  ["reuters".data, "bbc".data, "economist".data, "stratfor".data,
   "foreignpolicy".data, "janes".data]

/-- The `medium_credibility_sources` list inside `search_feeds`. -/
def medCredSearchSources : List Str := ["aljazeera".data, "cnn".data]

/-- The `source_boost` computed from `article["source"]` in `search_feeds`. -/
def searchSourceBoost (source : Str) : ℚ :=
  if highCredSearchSources.any (fun s => pyContains (pyLower source) s) then 15/100
  else if medCredSearchSources.any (fun s => pyContains (pyLower source) s) then 10/100
  else 0

/-- The `recency_score` factor: `max(0, 1 - days_old / 7)` for a parseable date,
`0.5` when `datetime.fromisoformat` raises. -/
def recencyScore (nowDays : Int) (published : Option Int) : ℚ :=
  match published with
  | some p => max 0 (1 - ((nowDays - p : ℤ) : ℚ) / 7)
  | none => 1/2

/-- The float sum `keyword_score * 0.5 + location_boost + source_boost +
recency_score * 0.15` scaled by 100, over exact rationals. -/
def relevanceValue (keywords km : List Str) (locationMatch : Bool) (source : Str)
    (published : Option Int) (nowDays : Int) : ℚ :=
  let keywordScore : ℚ :=
    if keywords.isEmpty then 0 else (km.length : ℚ) / (keywords.length : ℚ)
  let locationBoost : ℚ := if locationMatch then 2/10 else 0
  (keywordScore * (5/10) + locationBoost + searchSourceBoost source +
    recencyScore nowDays published * (15/100)) * 100

/-- Python `article["relevance_score"] = int((... ) * 100)`. -/
def relevanceScoreInt (keywords km : List Str) (locationMatch : Bool) (source : Str)
    (published : Option Int) (nowDays : Int) : Int :=
  pyInt (relevanceValue keywords km locationMatch source published nowDays)

/-- The body of the `for article in all_articles` filter-and-score loop of
`search_feeds`: `none` when the article is skipped by `continue`, otherwise
the article after the in-place assignments of `keywords_matched`,
`location_match` and `relevance_score`. -/
def scoreArticle (query : Str) (location : Option Str) (nowDays : Int)
    (a : Article) : Option Article :=
  let keywords := queryKeywords query
  let text := articleText a
  let km := keywordsMatched keywords text
  if km.isEmpty then none
  else
    let loc := optStr location
    let locMatch : Bool :=
      match loc with
      | some l => pyContains text (pyLower l)
      | none => false
    let excludedByLocation : Bool :=
      match loc with
      | some l => !locMatch && !(pyContains (pyLower query) (pyLower l))
      | none => false
    if excludedByLocation then none
    else some { a with
      keywords_matched := some km
      location_match := some (if loc.isSome then some locMatch else none)
      relevance_score :=
        some (relevanceScoreInt keywords km locMatch a.source a.published nowDays) }

/-- The sort key `x["relevance_score"]` as used by the sort key (`.get`-style default 0;
every article reaching the sort has the key set). -/
def relOf (a : Article) : Int := a.relevance_score.getD 0

/-- Stable descending insertion by `relevance_score`: the new article goes
after all already-placed articles of greater-or-equal score. -/
def insertByRel (a : Article) : List Article → List Article
  | [] => [a]
  | b :: rest => if relOf b < relOf a then a :: b :: rest else b :: insertByRel a rest

/-- Python `matching_articles.sort(key=lambda x: x["relevance_score"], reverse=True)`:
Python's stable sort, descending. -/
def sortByRel (l : List Article) : List Article :=
  l.foldl (fun acc a => insertByRel a acc) []

/-- Filter, score, rank and truncate: lines 320-380 of `search_feeds`,
applied to the flattened article list. -/
def searchFilterScore (articles : List Article) (query : Str)
    (location : Option Str) (nowDays : Int) (lim : Nat) : List Article :=
  (sortByRel (articles.filterMap (scoreArticle query location nowDays))).take lim

/-! ## Feed cache and `fetch_feed` (rss_scrapping.py lines 11-91) -/

/-- The module-level `_cache` / `_cache_timestamps` pair, merged into one
association list keyed by feed URL (the code always writes both together;
on the failure fallback only `_cache` membership is consulted, which agrees
with this merged view). -/
abbrev Cache := List (Str × (List Article × Nat))

/-- Python `_cache[url] = articles; _cache_timestamps[url] = time.time()`. -/
def cacheInsert (c : Cache) (url : Str) (v : List Article × Nat) : Cache :=
  match c with
  | [] => [(url, v)]
  | (u, w) :: rest => if u == url then (url, v) :: rest else (u, w) :: cacheInsert rest url v

/-- Function `fetch_feed(url, use_cache)`: `net` is the network+parse attempt
(`some entries` = HTTP 2xx with parsed entries, `none` = any exception).
Returns the article list, the cache afterwards, and whether a network call
was issued. -/
def fetch_feed (c : Cache) (url : Str) (useCache : Bool) (now ttl : Nat)
    (net : Option (List Article)) : List Article × Cache × Bool :=
  let cachedHit : Option (List Article) :=
    if useCache then
      match c.lookup url with
      | some (items, ts) => if now - ts < ttl then some items else none
      | none => none
    else none
  match cachedHit with
  | some items => (items, c, false)
  | none =>
    match net with
    | some entries =>
      let articles := entries.take 20
      (articles, cacheInsert c url (articles, now), true)
    | none =>
      match c.lookup url with
      | some (items, _) => (items, c, true)
      | none => ([], c, true)

/-- Function `fetch_all_feeds`: awaits `fetch_feed` for each configured
`(name, url)` pair in order, threading the cache. -/
def fetch_all_feeds (feeds : List (Str × Str)) (c : Cache) (now ttl : Nat)
    (net : Str → Option (List Article)) : List (Str × List Article) × Cache :=
  match feeds with
  | [] => ([], c)
  | (name, url) :: rest =>
    let r := fetch_feed c url true now ttl (net url)
    let rest' := fetch_all_feeds rest r.2.1 now ttl net
    ((name, r.1) :: rest'.1, rest'.2)

/-! ## Google Alerts aggregation (rss_scrapping.py lines 93-167) -/

/-- Outcome of processing one configured Google Alert, abstracting the
per-alert `try` block: `success arts` is a fetch plus per-article enrichment
that completed (yielding the enriched articles), `procError` is an exception
raised inside the block (caught at line 157). -/
inductive AlertOutcome where
  | success (articles : List Article)
  | procError (msg : Str)
deriving Repr, DecidableEq

/-- A value of the dict returned by `fetch_google_alerts`: every alert name
maps to a list of articles, but the reserved `"_errors"` key maps to a
`dict[str, str]` of error messages instead. -/
inductive AlertEntry where
  | articles (items : List Article)
  | errorMap (entries : List (Str × Str))
deriving Repr, DecidableEq

/-- Function `fetch_google_alerts`: on a per-alert exception the alert's entry is set
to `[]` and the message recorded; if any error occurred, the error dict is
added under the `"_errors"` key (insertion order = iteration order). -/
def fetch_google_alerts (cfg : List (Str × AlertOutcome)) : List (Str × AlertEntry) :=
  let results := cfg.map (fun p =>
    (p.1, AlertEntry.articles (match p.2 with
      | .success arts => arts
      | .procError _ => [])))
  let errors := cfg.filterMap (fun p =>
    match p.2 with
    | .procError msg =>
      some (p.1, "Error fetching Google Alert ".data ++ p.1 ++ ": ".data ++ msg)
    | .success _ => none)
  if errors.isEmpty then results else results ++ [("_errors".data, .errorMap errors)]

/-- Python `article["source_name"] = ...` (an in-place dict write). -/
def setSourceName (n : Str) (a : Article) : Article := { a with source_name := some n }

/-- The `for alert_name, articles in alerts.items()` flattening loop of
`search_feeds` (lines 312-315): iterating the `"_errors"` entry iterates the
error dict's keys, which are strings, and `article["source_name"] = ...` on a
string raises `TypeError`. -/
def flattenAlerts : List (Str × AlertEntry) → Except Str (List Article)
  | [] => .ok []
  | (name, .articles items) :: rest =>
    match flattenAlerts rest with
    | .ok tail => .ok (items.map (setSourceName ("alert_".data ++ name)) ++ tail)
    | .error e => .error e
  | (_, .errorMap es) :: rest =>
    if es.isEmpty then flattenAlerts rest
    else .error "TypeError: str object does not support item assignment".data

/-! ## `search_feeds` (rss_scrapping.py lines 286-380) -/

/-- First configured feed name whose URL is `url` (used to reconstruct which
`source_name` stamp a cached list received; feed URLs are distinct in the
configuration). -/
def feedNameFor (feeds : List (Str × Str)) (url : Str) : Option Str :=
  (feeds.find? (fun p => p.2 == url)).map Prod.fst

/-- Net effect of the filter-and-score loop on one article object: the loop
mutates matching articles in place and leaves skipped ones untouched. -/
def searchMutate (query : Str) (location : Option Str) (nowDays : Int)
    (a : Article) : Article :=
  match scoreArticle query location nowDays a with
  | some b => b
  | none => a

/-- Function `search_feeds(query, limit, include_alerts, location)`.

The article lists returned by `fetch_feed` are the very list objects stored
in `_cache`, so the in-place `article[...] = ...` writes of the flattening
and scoring loops are visible in the cache afterwards; the second component
is the cache after those writes.  Alerts are passed in post-
`fetch_google_alerts` form (their own feed caching is independent of the
RSS-feed cache modelled here).  `nowT` is `time.time()` (seconds), `nowDays`
is `datetime.now()` at day granularity. -/
def search_feeds (feeds : List (Str × Str)) (c : Cache) (nowT ttl : Nat)
    (net : Str → Option (List Article)) (query : Str) (lim : Nat)
    (includeAlerts : Bool) (alerts : List (Str × AlertEntry))
    (location : Option Str) (nowDays : Int) :
    Except Str (List Article) × Cache :=
  let fa := fetch_all_feeds feeds c nowT ttl net
  let rssArticles := (fa.1.map (fun p => p.2.map (setSourceName p.1))).flatten
  match (if includeAlerts then flattenAlerts alerts else Except.ok []) with
  | .error e =>
    -- the TypeError aborts search_feeds after only the source_name stamping
    -- of the RSS articles has happened
    (.error e,
     fa.2.map (fun e' =>
       match feedNameFor feeds e'.1 with
       | some n => (e'.1, (e'.2.1.map (setSourceName n), e'.2.2))
       | none => e'))
  | .ok alertArticles =>
    (.ok (searchFilterScore (rssArticles ++ alertArticles) query location nowDays lim),
     fa.2.map (fun e' =>
       match feedNameFor feeds e'.1 with
       | some n =>
         (e'.1, (e'.2.1.map (fun a => searchMutate query location nowDays (setSourceName n a)),
                 e'.2.2))
       | none => e'))

/-! ## Source credibility and alert confidence (rss_scrapping.py lines 213-284) -/

/-- The `high_credibility` publisher list of `determine_source_credibility`. -/
def highCredibilityList : List Str :=
  ["reuters".data, "bbc".data, "economist".data, "time".data, "bloomberg".data,
   "associated press".data, "ap".data, "wall street journal".data, "wsj".data,
   "washington post".data, "new york times".data, "nyt".data,
   "financial times".data, "ft".data]

/-- The `medium_credibility` publisher list of `determine_source_credibility`. -/
def mediumCredibilityList : List Str :=
  ["cnn".data, "fox".data, "aljazeera".data, "the guardian".data, "the hill".data,
   "politico".data, "usa today".data, "business insider".data, "forbes".data,
   "zdnet".data, "techcrunch".data]

/-- Function `determine_source_credibility(source)`. -/
def determine_source_credibility (source : Str) : Str :=
  if highCredibilityList.any (fun s => pyContains (pyLower source) s) then "high".data
  else if mediumCredibilityList.any (fun s => pyContains (pyLower source) s) then "medium".data
  else "standard".data

/-- Function `calculate_alert_confidence` before the final `min(100, max(0, score))`
clamp. -/
def alertConfidenceRaw (a : Article) (alertName : Str) : Int :=
  let score1 : Int :=
    70 + (if pyContains (pyLower a.title) (pyLower alertName) then 15 else 0)
  let publisher := a.publisher.getD []
  let score2 : Int := score1 +
    (if publisher.isEmpty then 0
     else if determine_source_credibility publisher = "high".data then 10
     else if determine_source_credibility publisher = "medium".data then 5
     else 0)
  score2 - (if a.summary.length < 100 then 5 else 0)

/-- Function `calculate_alert_confidence(article, alert_name)`. -/
def calculate_alert_confidence (a : Article) (alertName : Str) : Int :=
  min 100 (max 0 (alertConfidenceRaw a alertName))

/-! ## Report state machine (blackglass_report.py) -/

/-- The `ReportStatus` constants. -/
inductive ReportStatus where
  | queued
  | processing
  | completed
  | failed
deriving Repr, DecidableEq

/-- The mutable fields of one `_reports[report_id]` record that the state
machine touches (timestamps and the estimated completion time, being
wall-clock derived, are omitted). -/
structure ReportRec where
  status : ReportStatus
  completion_percentage : Nat
  sources_processed : List Str
  output_path : Option Str := none
deriving Repr, DecidableEq

/-- The fresh record written by `start_report_generation` (lines 40-56). -/
def initialReport : ReportRec :=
  { status := .queued, completion_percentage := 0, sources_processed := [] }

/-- Function `update_report_status(report_id, status, completion_percentage,
sources_processed, output_path)` applied to an existing record:
`sources_processed` entries are appended only when the argument is truthy. -/
def update_report_status (r : ReportRec) (status : ReportStatus) (pct : Nat)
    (srcs : List Str) (outputPath : Option Str) : ReportRec :=
  { r with
    status := status
    completion_percentage := pct
    sources_processed :=
      if srcs.isEmpty then r.sources_processed else r.sources_processed ++ srcs
    output_path := match outputPath with
      | some p => some p
      | none => r.output_path }

/-- The sequence of `update_report_status` calls performed by one run of
`generate_report`.  The three `Bool`s say whether `search_feeds` (line 96),
`process_intelligence_data` (line 109) or `save_report_data` (line 117)
raises; the status updates themselves are infallible dict writes, and an
exception anywhere in the `try` body is caught and answered with
`(FAILED, 0)` (lines 128-135). -/
def generateReportUpdates (searchFails processFails saveFails : Bool)
    (reportPath : Str) : List (ReportStatus × Nat × List Str × Option Str) :=
  [(.processing, 10, [], none), (.processing, 20, ["Searching RSS feeds".data], none)] ++
  (if searchFails then [(.failed, 0, ["Error generating report".data], none)]
   else [(.processing, 40, ["RSS feeds processed".data], none),
         (.processing, 60, ["Analyzing collected data".data], none)] ++
     (if processFails then [(.failed, 0, ["Error generating report".data], none)]
      else [(.processing, 80, ["Data analysis completed".data], none),
            (.processing, 90, ["Generating report document".data], none)] ++
        (if saveFails then [(.failed, 0, ["Error generating report".data], none)]
         else [(.completed, 100, ["Report generation completed".data], some reportPath)])))

/-- Every record state the report passes through during its lifetime:
the `QUEUED` record written by `start_report_generation` followed by the
successive results of `generate_report`'s status updates. -/
def reportTrace (searchFails processFails saveFails : Bool) (reportPath : Str) :
    List ReportRec :=
  (generateReportUpdates searchFails processFails saveFails reportPath).foldl
    (fun acc u => acc ++ [update_report_status (acc.getLastD initialReport) u.1 u.2.1 u.2.2.1 u.2.2.2])
    [initialReport]

/-- The invariant claimed for one step of the report lifetime: the status
moves only along QUEUED→PROCESSING→{COMPLETED, FAILED} (or stays put), the
completion percentage never decreases except on the transition to FAILED,
and it is 0 exactly after such a transition. -/
def reportStepOk (x y : ReportRec) : Bool :=
  (decide (x.status = y.status) ||
   (decide (x.status = .queued) && decide (y.status = .processing)) ||
   (decide (x.status = .processing) &&
    (decide (y.status = .completed) || decide (y.status = .failed)))) &&
  (if y.status = .failed then decide (y.completion_percentage = 0)
   else decide (x.completion_percentage ≤ y.completion_percentage)) &&
  (decide (y.completion_percentage < x.completion_percentage) → decide (y.status = .failed))

/-! ## Endpoint validation (endpoints.py lines 145-228,
blackglass_report.py lines 21-61, 179-189) -/

/-- The `_reports` module-level registry. -/
abbrev ReportsState := List (Str × ReportRec)

/-- Function `start_report_generation`: stores the QUEUED metadata record and
schedules the background `generate_report` task (the task itself is the
trace modelled above). -/
def start_report_generation (reports : ReportsState) (reportId : Str) :
    ReportsState × ReportRec :=
  ((reportId, initialReport) :: reports, initialReport)

/-- An HTTP error response: `(status_code, detail)`. -/
abbrev HttpError := Nat × Str

/-- Endpoint `POST /blackglass/generate-report` (`generate_threat_report`): rejects an
empty keyword list with 400 before minting an ID or creating any record;
otherwise creates the QUEUED record under the freshly minted UUID
(`freshId` stands for the `uuid.uuid4()` draw). -/
def generate_threat_report (reports : ReportsState) (keywords : List Str)
    (freshId : Str) : Except HttpError (ReportsState × Str) :=
  if keywords.isEmpty then
    .error (400, "At least one keyword is required".data)
  else
    let r := start_report_generation reports freshId
    .ok (r.1, freshId)

/-- Endpoint `GET /blackglass/report/...` (`get_report_status`):
404 for an unknown ID. -/
def get_report_status (reports : ReportsState) (reportId : Str) :
    Except HttpError ReportRec :=
  match reports.lookup reportId with
  | none => .error (404, "Report with ID not found".data)
  | some r => .ok r

/-! ## Concrete fixtures used by witnesses and counterexamples -/

/-- A concrete article used as test data by the witness theorems. -/
def artW : Article := { title := "t".data, summary := "s".data, source := "b".data }

/-- The matching article used in the search-pipeline witnesses. -/
def artM : Article :=
  { title := "acme breach".data, summary := "hack".data, source := "blog".data }

/-- Fixture: `artM` after the scoring loop's in-place writes for the query "acme". -/
def artMS : Article :=
  { artM with
    source_name := some "f".data
    keywords_matched := some ["acme".data]
    location_match := some none
    relevance_score := some 57 }

/-- One keyword of three matching, seven days old: the score truncates. -/
def artR : Article :=
  { title := "alpha news".data, summary := "none here".data,
    source := "blog".data, published := some 0 }

/-- A future-dated article (published 70 days after "now"). -/
def artF : Article :=
  { title := "acme".data, summary := "x".data, source := "blog".data,
    published := some 70 }

/-- Fixture: `artM` scored directly (no `source_name` stamp) for the query "acme". -/
def artMSc : Article :=
  { artM with
    keywords_matched := some ["acme".data]
    location_match := some none
    relevance_score := some 57 }

/-- An article with a parseable publish date (used to exhibit the scorer's
wall-clock dependence). -/
def artP : Article :=
  { title := "acme".data, summary := "x".data, source := "blog".data,
    published := some 0 }

/-- The per-cache-entry effect of `search_feeds`'s in-place mutations, as a
function of the entry's key: used to state the cache-map rewriting. -/
def cacheScoreMut (feeds : List (Str × Str)) (query : Str) (loc : Option Str)
    (d : Int) (u : Str) (v : List Article × Nat) : List Article × Nat :=
  match feedNameFor feeds u with
  | some n => (v.1.map (fun a => searchMutate query loc d (setSourceName n a)), v.2)
  | none => v

/-- Fixture: `artM` as it comes out of a successful alert aggregation for the alert
"alpha" and the query "acme". -/
def artAS : Article :=
  { artM with
    source_name := some "alert_alpha".data
    keywords_matched := some ["acme".data]
    location_match := some none
    relevance_score := some 57 }

/-! ## Helper lemmas -/

theorem pyContains_nil (s : Str) : pyContains s [] = true := by
  simp [pyContains]

theorem pyInt_eq_floor {q : ℚ} (h : 0 ≤ q) : pyInt q = ⌊q⌋ := by
  rw [Rat.floor_def]
  exact Int.tdiv_eq_ediv (Rat.num_nonneg.2 h) (Int.natCast_nonneg _)

theorem pyInt_bounds {q : ℚ} (h0 : 0 ≤ q) (h1 : q ≤ 100) :
    0 ≤ pyInt q ∧ pyInt q ≤ 100 := by
  rw [pyInt_eq_floor h0]
  refine ⟨Int.floor_nonneg.2 h0, ?_⟩
  calc ⌊q⌋ ≤ ⌊(100 : ℚ)⌋ := Int.floor_mono h1
    _ = 100 := by norm_num

theorem mem_insertByRel {x a : Article} {l : List Article} :
    x ∈ insertByRel a l ↔ x = a ∨ x ∈ l := by
  induction l with
  | nil => simp [insertByRel]
  | cons b rest ih =>
    simp only [insertByRel]
    split
    · simp
    · simp [ih]; tauto

theorem mem_sortByRel_fold {x : Article} (l acc : List Article) :
    x ∈ l.foldl (fun acc a => insertByRel a acc) acc ↔ x ∈ acc ∨ x ∈ l := by
  induction l generalizing acc with
  | nil => simp
  | cons a rest ih =>
    simp only [List.foldl_cons, ih, mem_insertByRel, List.mem_cons]
    tauto

theorem mem_sortByRel {x : Article} {l : List Article} : x ∈ sortByRel l ↔ x ∈ l := by
  simp [sortByRel, mem_sortByRel_fold]

theorem mem_searchFilterScore {x : Article} {arts : List Article} {q : Str}
    {loc : Option Str} {d : Int} {lim : Nat}
    (hx : x ∈ searchFilterScore arts q loc d lim) :
    ∃ a ∈ arts, scoreArticle q loc d a = some x := by
  have h1 : x ∈ sortByRel (arts.filterMap (scoreArticle q loc d)) :=
    List.take_subset _ _ hx
  rw [mem_sortByRel] at h1
  exact List.mem_filterMap.1 h1

theorem scoreArticle_eq_some {q : Str} {loc : Option Str} {d : Int} {a b : Article}
    (h : scoreArticle q loc d a = some b) :
    b.title = a.title ∧ b.summary = a.summary ∧ b.source = a.source ∧
    b.published = a.published ∧
    keywordsMatched (queryKeywords q) (articleText a) ≠ [] ∧
    b.keywords_matched = some (keywordsMatched (queryKeywords q) (articleText a)) ∧
    b.relevance_score.isSome = true := by
  simp only [scoreArticle] at h
  split at h
  · exact absurd h (by simp)
  · rename_i hkm
    split at h
    · exact absurd h (by simp)
    · cases h
      refine ⟨rfl, rfl, rfl, rfl, ?_, rfl, rfl⟩
      simpa [List.isEmpty_iff] using hkm

/-! ## Claim theorems -/

/-- C2: for every report, the status moves only along
QUEUED→PROCESSING→{COMPLETED, FAILED}; the completion percentage is
non-decreasing while the status is not FAILED, and is reset to 0 exactly
when (and only when) the report transitions to FAILED — over every possible
run of `generate_report` (any of the three fallible stages may raise). -/
theorem C2_report_state_machine (f1 f2 f3 : Bool) (path : Str) :
    List.Chain' (fun x y => reportStepOk x y = true) (reportTrace f1 f2 f3 path) := by
  cases f1 <;> cases f2 <;> cases f3 <;>
    simp [reportTrace, generateReportUpdates, update_report_status, initialReport,
      reportStepOk, List.Chain']

/-- C8: `generate_threat_report` with an empty keyword list is rejected with
the 400 validation error before any report record is created: the registry
is untouched, so `get_report_status` on any ID not already present (in
particular any ID that could have been minted for the call) returns 404. -/
theorem C8_empty_keywords_rejected (reports : ReportsState) (keywords : List Str)
    (freshId : Str) (hkw : keywords = []) :
    generate_threat_report reports keywords freshId =
      .error (400, "At least one keyword is required".data) ∧
    ∀ id, reports.lookup id = none →
      get_report_status reports id = .error (404, "Report with ID not found".data) := by
  subst hkw
  refine ⟨rfl, ?_⟩
  intro id h
  simp [get_report_status, h]

theorem C8_empty_keywords_rejected_witness :
    generate_threat_report [] [] "a1b2".data =
      .error (400, "At least one keyword is required".data) ∧
    get_report_status [] "a1b2".data =
      .error (404, "Report with ID not found".data) :=
  ⟨(C8_empty_keywords_rejected [] [] "a1b2".data rfl).1,
   (C8_empty_keywords_rejected [] [] "a1b2".data rfl).2 "a1b2".data rfl⟩

/-- C10: for every article and alert name, `calculate_alert_confidence`
stays within [65, 95] (base 70, at most +15 for a title match plus +10 for a
high-credibility publisher, at least −5 for a short summary), so the final
`min(100, max(0, ·))` clamp never changes the value. -/
theorem C10_confidence_range (a : Article) (alertName : Str) :
    65 ≤ alertConfidenceRaw a alertName ∧ alertConfidenceRaw a alertName ≤ 95 ∧
    calculate_alert_confidence a alertName = alertConfidenceRaw a alertName := by
  have h : 65 ≤ alertConfidenceRaw a alertName ∧ alertConfidenceRaw a alertName ≤ 95 := by
    simp only [alertConfidenceRaw]
    split_ifs <;> omega
  refine ⟨h.1, h.2, ?_⟩
  unfold calculate_alert_confidence
  omega

theorem lookup_cacheInsert (c : Cache) (url : Str) (v : List Article × Nat) :
    (cacheInsert c url v).lookup url = some v := by
  induction c with
  | nil => simp [cacheInsert, List.lookup]
  | cons e rest ih =>
    obtain ⟨u, w⟩ := e
    simp only [cacheInsert]
    by_cases h : u = url
    · subst h
      simp [List.lookup]
    · rw [if_neg (by simpa using h)]
      have hbe : (url == u) = false := beq_eq_false_iff_ne.2 (Ne.symm h)
      simp [List.lookup, hbe, ih]

/-- C6: for every source URL, a second `fetch_feed` within the TTL of a
fetch that populated the cache issues no network call and returns the cached
items; a fetch after TTL expiry whose network attempt fails returns the
stale cached items when a prior successful fetch exists, and the empty list
otherwise — the failure is answered with a value, never propagated. -/
theorem C6_fetch_cache (c : Cache) (url : Str) (ttl now1 now2 : Nat)
    (entries : List Article) (net2 : Option (List Article)) :
    (c.lookup url = none → now2 - now1 < ttl →
      fetch_feed (fetch_feed c url true now1 ttl (some entries)).2.1 url true now2 ttl net2 =
        ((fetch_feed c url true now1 ttl (some entries)).1,
         (fetch_feed c url true now1 ttl (some entries)).2.1, false)) ∧
    (∀ items ts, c.lookup url = some (items, ts) → ¬ now2 - ts < ttl →
      fetch_feed c url true now2 ttl none = (items, c, true)) ∧
    (c.lookup url = none → fetch_feed c url true now2 ttl none = ([], c, true)) := by
  refine ⟨?_, ?_, ?_⟩
  · intro h hlt
    simp [fetch_feed, h, lookup_cacheInsert, hlt]
  · intro items ts h hge
    simp [fetch_feed, h, if_neg hge]
  · intro h
    simp [fetch_feed, h]



theorem C6_fetch_cache_witness :
    (fetch_feed (fetch_feed [] "u".data true 100 3600 (some [artW])).2.1
        "u".data true 200 3600 none =
      ((fetch_feed [] "u".data true 100 3600 (some [artW])).1,
       (fetch_feed [] "u".data true 100 3600 (some [artW])).2.1, false)) ∧
    (fetch_feed [("u".data, ([artW], 100))] "u".data true 4000 3600 none =
      ([artW], [("u".data, ([artW], 100))], true)) ∧
    (fetch_feed [] "u".data true 4000 3600 none = ([], [], true)) :=
  ⟨(C6_fetch_cache [] "u".data 3600 100 200 [artW] none).1 rfl (by decide),
   (C6_fetch_cache [("u".data, ([artW], 100))] "u".data 3600 100 4000
      [artW] none).2.1 [artW] 100 (by decide) (by decide),
   (C6_fetch_cache [] "u".data 3600 100 4000 [artW] none).2.2 rfl⟩

theorem optStr_some_ne_nil {l : Str} (h : l ≠ []) : optStr (some l) = some l := by
  cases l with
  | nil => exact absurd rfl h
  | cons c rest => rfl

theorem search_feeds_ok {feeds : List (Str × Str)} {c : Cache} {nowT ttl : Nat}
    {net : Str → Option (List Article)} {query : Str} {lim : Nat} {inclA : Bool}
    {alerts : List (Str × AlertEntry)} {loc : Option Str} {d : Int} {l : List Article}
    (hok : (search_feeds feeds c nowT ttl net query lim inclA alerts loc d).1 = .ok l) :
    ∃ arts, l = searchFilterScore arts query loc d lim := by
  simp only [search_feeds] at hok
  split at hok
  · simp at hok
  · exact ⟨_, by simpa using hok.symm⟩

theorem scoreArticle_some_locMatch {q lcn : Str} {d : Int} {a b : Article}
    (hne : lcn ≠ []) (hq : pyContains (pyLower q) (pyLower lcn) = false)
    (h : scoreArticle q (some lcn) d a = some b) :
    pyContains (articleText a) (pyLower lcn) = true := by
  simp only [scoreArticle, optStr_some_ne_nil hne, hq] at h
  split at h
  · simp at h
  · split at h
    · simp at h
    · rename_i hexcl
      simpa using hexcl

theorem scoreArticle_locRedundant {q lcn : Str} {d : Int} (a : Article)
    (hq : pyContains (pyLower q) (pyLower lcn) = true)
    (hkm : keywordsMatched (queryKeywords q) (articleText a) ≠ []) :
    (scoreArticle q (some lcn) d a).isSome = true := by
  have hkm' : (keywordsMatched (queryKeywords q) (articleText a)).isEmpty = false := by
    simpa [List.isEmpty_iff] using hkm
  rcases eq_or_ne lcn [] with rfl | hne
  · simp [scoreArticle, optStr, hkm']
  · simp [scoreArticle, optStr_some_ne_nil hne, hq, hkm']

/-- C3: every item returned by `search_feeds` matches at least one query
keyword as a case-insensitive substring of its lowercased title+summary
text; items matching zero keywords never appear in the result (they are
skipped by `continue`). -/
theorem C3_keyword_filter (feeds : List (Str × Str)) (c : Cache) (nowT ttl : Nat)
    (net : Str → Option (List Article)) (query : Str) (lim : Nat) (inclA : Bool)
    (alerts : List (Str × AlertEntry)) (loc : Option Str) (d : Int)
    (l : List Article)
    (hok : (search_feeds feeds c nowT ttl net query lim inclA alerts loc d).1 = .ok l)
    (hkw : queryKeywords query ≠ []) (a : Article) (ha : a ∈ l) :
    ∃ kw ∈ queryKeywords query, pyContains (articleText a) kw = true := by
  obtain ⟨arts, rfl⟩ := search_feeds_ok hok
  obtain ⟨a0, _, hsc⟩ := mem_searchFilterScore ha
  obtain ⟨ht, hs, _, _, hkm, _, _⟩ := scoreArticle_eq_some hsc
  have htext : articleText a = articleText a0 := by
    unfold articleText
    rw [ht, hs]
  obtain ⟨kw, hkwmem⟩ := List.exists_mem_of_ne_nil _ hkm
  have hf := List.mem_filter.1 hkwmem
  exact ⟨kw, hf.1, by rw [htext]; exact hf.2⟩





theorem C3_keyword_filter_witness :
    ∃ kw ∈ queryKeywords "acme".data, pyContains (articleText artMS) kw = true := by
  refine C3_keyword_filter [("f".data, "u".data)] [("u".data, ([artM], 50))] 100 3600
    (fun _ => none) "acme".data 20 false [] none 0 [artMS] ?_ (by decide) artMS (by simp)
  simp +decide [search_feeds, fetch_all_feeds, fetch_feed, searchFilterScore, sortByRel,
    insertByRel, setSourceName, scoreArticle, queryKeywords, pySplitWs, splitWsAux,
    pyLower, articleText, keywordsMatched, pyContains, optStr, relevanceScoreInt,
    relevanceValue, searchSourceBoost, recencyScore, highCredSearchSources,
    medCredSearchSources, pyInt, artM, artMS, flattenAlerts]
  norm_num [Int.tdiv, List.lookup]

/-- C4: when a location is given and its term does not occur in the free-text
query, every item returned by `search_feeds` contains the location
(case-insensitively) in its title+summary text; when the location term does
occur in the query, an item matching at least one keyword is never excluded
by the location check (the asymmetric hard-filter rule). -/
theorem C4_location_filter (feeds : List (Str × Str)) (c : Cache) (nowT ttl : Nat)
    (net : Str → Option (List Article)) (query : Str) (lim : Nat) (inclA : Bool)
    (alerts : List (Str × AlertEntry)) (lcn : Str) (d : Int) (l : List Article) :
    ((search_feeds feeds c nowT ttl net query lim inclA alerts (some lcn) d).1 = .ok l →
      pyContains (pyLower query) (pyLower lcn) = false →
      ∀ a ∈ l, pyContains (articleText a) (pyLower lcn) = true) ∧
    (∀ a : Article, pyContains (pyLower query) (pyLower lcn) = true →
      keywordsMatched (queryKeywords query) (articleText a) ≠ [] →
      (scoreArticle query (some lcn) d a).isSome = true) := by
  constructor
  · intro hok hq a ha
    have hne : lcn ≠ [] := by
      rintro rfl
      rw [show pyLower [] = [] from rfl, pyContains_nil] at hq
      exact Bool.true_eq_false ▸ hq
    obtain ⟨arts, rfl⟩ := search_feeds_ok hok
    obtain ⟨a0, _, hsc⟩ := mem_searchFilterScore ha
    obtain ⟨ht, hs, _, _, _, _, _⟩ := scoreArticle_eq_some hsc
    have htext : articleText a = articleText a0 := by
      unfold articleText
      rw [ht, hs]
    rw [htext]
    exact scoreArticle_some_locMatch hne hq hsc
  · intro a hq hkm
    exact scoreArticle_locRedundant a hq hkm

theorem C4_location_filter_witness :
    (∀ a ∈ [{ artM with
        title := "acme breach in berlin".data
        source_name := some "f".data
        keywords_matched := some ["acme".data]
        location_match := some (some true)
        relevance_score := some 77 }],
      pyContains (articleText a) (pyLower "berlin".data) = true) ∧
    (scoreArticle "acme berlin".data (some "berlin".data) 0 artM).isSome = true := by
  constructor
  · refine (C4_location_filter [("f".data, "u".data)]
      [("u".data, ([{ artM with title := "acme breach in berlin".data }], 50))] 100 3600
      (fun _ => none) "acme".data 20 false [] "berlin".data 0 _).1 ?_ (by decide)
    simp +decide [search_feeds, fetch_all_feeds, fetch_feed, searchFilterScore, sortByRel,
      insertByRel, setSourceName, scoreArticle, queryKeywords, pySplitWs, splitWsAux,
      pyLower, articleText, keywordsMatched, pyContains, optStr, relevanceScoreInt,
      relevanceValue, searchSourceBoost, recencyScore, highCredSearchSources,
      medCredSearchSources, pyInt, artM, flattenAlerts]
    norm_num [Int.tdiv, List.lookup]
  · exact (C4_location_filter [] [] 0 0 (fun _ => none) "acme berlin".data 0 false []
      "berlin".data 0 []).2 artM (by decide) (by decide)

theorem searchSourceBoost_bounds (src : Str) :
    0 ≤ searchSourceBoost src ∧ searchSourceBoost src ≤ 15/100 := by
  unfold searchSourceBoost
  split_ifs <;> norm_num

theorem recencyScore_bounds {d : Int} {pub : Option Int}
    (hpub : ∀ p, pub = some p → p ≤ d) :
    0 ≤ recencyScore d pub ∧ recencyScore d pub ≤ 1 := by
  cases pub with
  | none => norm_num [recencyScore]
  | some p =>
    have hp : p ≤ d := hpub p rfl
    unfold recencyScore
    have hq : (0 : ℚ) ≤ ((d - p : ℤ) : ℚ) / 7 := by
      apply div_nonneg _ (by norm_num)
      exact_mod_cast sub_nonneg.2 hp
    exact ⟨le_max_left 0 _, max_le (by norm_num) (by linarith)⟩

theorem relevanceScoreInt_bounds (keywords : List Str) (text src : Str) (lm : Bool)
    (pub : Option Int) (d : Int) (hpub : ∀ p, pub = some p → p ≤ d) :
    0 ≤ relevanceScoreInt keywords (keywordsMatched keywords text) lm src pub d ∧
    relevanceScoreInt keywords (keywordsMatched keywords text) lm src pub d ≤ 100 := by
  have hsb := searchSourceBoost_bounds src
  have hrs := recencyScore_bounds hpub
  have hkw : 0 ≤ (if keywords.isEmpty then (0:ℚ)
      else ((keywordsMatched keywords text).length : ℚ) / (keywords.length : ℚ)) ∧
      (if keywords.isEmpty then (0:ℚ)
      else ((keywordsMatched keywords text).length : ℚ) / (keywords.length : ℚ)) ≤ 1 := by
    split_ifs with h
    · norm_num
    · have hlen : (keywordsMatched keywords text).length ≤ keywords.length :=
        List.length_filter_le _ _
      have hne : keywords ≠ [] := by simpa [List.isEmpty_iff] using h
      have hpos : 0 < (keywords.length : ℚ) := by
        exact_mod_cast List.length_pos.2 hne
      refine ⟨by positivity, ?_⟩
      rw [div_le_one hpos]
      exact_mod_cast hlen
  have hval : 0 ≤ relevanceValue keywords (keywordsMatched keywords text) lm src pub d ∧
      relevanceValue keywords (keywordsMatched keywords text) lm src pub d ≤ 100 := by
    simp only [relevanceValue]
    rcases lm <;> simp only [if_true, if_false, Bool.false_eq_true] <;>
      exact ⟨by nlinarith [hsb.1, hsb.2, hrs.1, hrs.2, hkw.1, hkw.2],
             by nlinarith [hsb.1, hsb.2, hrs.1, hrs.2, hkw.1, hkw.2]⟩
  exact pyInt_bounds hval.1 hval.2

theorem scoreArticle_relevanceEq {q : Str} {loc : Option Str} {d : Int} {a b : Article}
    (h : scoreArticle q loc d a = some b) :
    ∃ lm : Bool, b.relevance_score = some (relevanceScoreInt (queryKeywords q)
      (keywordsMatched (queryKeywords q) (articleText a)) lm a.source a.published d) := by
  simp only [scoreArticle] at h
  split at h
  · simp at h
  · split at h
    · simp at h
    · cases h
      exact ⟨_, rfl⟩

/-- C5 (amended): every surviving item's relevance score equals the
truncation `int(sum × 100)` of the weighted sum (not a rounding), and the
stored score lies within [0, 100] whenever the item's publish date is not in
the future (unparseable dates included); a future-dated item can exceed 100
because the recency factor is not clamped above. -/
theorem C5_score_range (query : Str) (loc : Option Str) (d : Int) (a b : Article)
    (h : scoreArticle query loc d a = some b)
    (hpub : ∀ p, a.published = some p → p ≤ d) :
    ∃ s, b.relevance_score = some s ∧ 0 ≤ s ∧ s ≤ 100 := by
  obtain ⟨lm, hrel⟩ := scoreArticle_relevanceEq h
  exact ⟨_, hrel,
    relevanceScoreInt_bounds (queryKeywords query) (articleText a) a.source lm
      a.published d hpub⟩





/-- C5 (counterexample): with 1 of 3 keywords matched and all other factors
zero the code stores `int(50/3) = 16` while the claimed `round` gives 17;
and a future-dated article is stored with score 215, outside [0, 100]. -/
theorem C5_counterexample :
    (scoreArticle "alpha beta gamma".data none 7 artR).map
      (fun x => x.relevance_score) = some (some 16) ∧
    round ((((1:ℚ)/3) * (5/10) + 0 + 0 + 0 * (15/100)) * 100) = 17 ∧
    (scoreArticle "acme".data none 0 artF).map
      (fun x => x.relevance_score) = some (some 215) := by
  refine ⟨?_, by norm_num [round_eq], ?_⟩ <;>
  · simp +decide [scoreArticle, queryKeywords, pySplitWs, splitWsAux, pyLower, articleText,
      keywordsMatched, pyContains, optStr, relevanceScoreInt, relevanceValue,
      searchSourceBoost, recencyScore, highCredSearchSources, medCredSearchSources,
      pyInt, artR, artF]
    norm_num [Int.tdiv]



theorem C5_score_range_witness :
    ∃ s, artMSc.relevance_score = some s ∧ 0 ≤ s ∧ s ≤ 100 := by
  refine C5_score_range "acme".data none 0 artM artMSc ?_ (by simp [artM])
  simp +decide [scoreArticle, queryKeywords, pySplitWs, splitWsAux, pyLower, articleText,
    keywordsMatched, pyContains, optStr, relevanceScoreInt, relevanceValue,
    searchSourceBoost, recencyScore, highCredSearchSources, medCredSearchSources,
    pyInt, artM, artMSc]
  norm_num [Int.tdiv]



/-- C9 (counterexample): the scoring step reads the current wall-clock time
through the recency factor — the same item and query scored at two different
times receive different relevance scores (65 at day 0, 50 at day 70). -/
theorem C9_counterexample :
    (scoreArticle "acme".data none 0 artP).map (fun x => x.relevance_score) =
      some (some 65) ∧
    (scoreArticle "acme".data none 70 artP).map (fun x => x.relevance_score) =
      some (some 50) := by
  constructor <;>
  · simp +decide [scoreArticle, queryKeywords, pySplitWs, splitWsAux, pyLower, articleText,
      keywordsMatched, pyContains, optStr, relevanceScoreInt, relevanceValue,
      searchSourceBoost, recencyScore, highCredSearchSources, medCredSearchSources,
      pyInt, artP]
    norm_num [Int.tdiv]

/-- C9 (amended): the scoring step is deterministic given the item's text
(title, summary), its source, its publish date, the query, the location and
the current time — it reads no other article field and no other hidden
state; in particular it does depend on the current time. -/
theorem C9_deterministic (query : Str) (location : Option Str) (d : Int)
    (a b : Article) (ht : a.title = b.title) (hs : a.summary = b.summary)
    (hsrc : a.source = b.source) (hp : a.published = b.published) :
    (scoreArticle query location d a).isSome = (scoreArticle query location d b).isSome ∧
    (scoreArticle query location d a).map (fun x => x.relevance_score) =
      (scoreArticle query location d b).map (fun x => x.relevance_score) ∧
    (scoreArticle query location d a).map (fun x => x.keywords_matched) =
      (scoreArticle query location d b).map (fun x => x.keywords_matched) ∧
    (scoreArticle query location d a).map (fun x => x.location_match) =
      (scoreArticle query location d b).map (fun x => x.location_match) := by
  have htext : articleText a = articleText b := by
    unfold articleText
    rw [ht, hs]
  simp only [scoreArticle, htext, hsrc, hp]
  split
  · simp
  · split
    · simp
    · simp

theorem C9_deterministic_witness :
    (scoreArticle "acme".data none 0 artP).isSome =
      (scoreArticle "acme".data none 0 { artP with link := "z".data }).isSome ∧
    (scoreArticle "acme".data none 0 artP).map (fun x => x.relevance_score) =
      (scoreArticle "acme".data none 0 { artP with link := "z".data }).map
        (fun x => x.relevance_score) ∧
    (scoreArticle "acme".data none 0 artP).map (fun x => x.keywords_matched) =
      (scoreArticle "acme".data none 0 { artP with link := "z".data }).map
        (fun x => x.keywords_matched) ∧
    (scoreArticle "acme".data none 0 artP).map (fun x => x.location_match) =
      (scoreArticle "acme".data none 0 { artP with link := "z".data }).map
        (fun x => x.location_match) :=
  C9_deterministic "acme".data none 0 artP { artP with link := "z".data }
    rfl rfl rfl rfl

theorem lookup_map_keyfix {β : Type} (f : Str → β → β) (l : List (Str × β)) (url : Str) :
    (l.map (fun e => (e.1, f e.1 e.2))).lookup url = (l.lookup url).map (f url) := by
  induction l with
  | nil => rfl
  | cons e rest ih =>
    simp only [List.map_cons, List.lookup]
    rcases hbe : url == e.1 with _ | _
    · simpa [hbe] using ih
    · have heq : url = e.1 := eq_of_beq hbe
      subst heq
      simp [hbe]



/-- C1 (amended): `search_feeds` mutates the shared cached article objects in
place — for a configured feed whose cached (or freshly cached) list contains
an article that survives filtering, the cache after the search holds the
scored version of that article, scoring fields included. -/
theorem C1_cache_mutation (name url : Str) (c : Cache) (nowT ttl : Nat)
    (net : Str → Option (List Article)) (query : Str) (lim : Nat)
    (loc : Option Str) (d : Int) (items : List Article) (ts : Nat) (a b : Article)
    (hfa : ((fetch_all_feeds [(name, url)] c nowT ttl net).2).lookup url = some (items, ts))
    (ha : a ∈ items) (hsc : scoreArticle query loc d (setSourceName name a) = some b) :
    ∃ items2 : List Article,
      ((search_feeds [(name, url)] c nowT ttl net query lim false [] loc d).2).lookup url =
        some (items2, ts) ∧ b ∈ items2 ∧ b.relevance_score.isSome = true ∧
      b.keywords_matched.isSome = true := by
  have hname : feedNameFor [(name, url)] url = some name := by
    simp [feedNameFor]
  have hmapfun :
      (fun e' : Str × (List Article × Nat) =>
        match feedNameFor [(name, url)] e'.1 with
        | some n => (e'.1, (e'.2.1.map (fun a => searchMutate query loc d (setSourceName n a)),
            e'.2.2))
        | none => e') =
      (fun e' : Str × (List Article × Nat) =>
        (e'.1, cacheScoreMut [(name, url)] query loc d e'.1 e'.2)) := by
    funext e'
    cases h : feedNameFor [(name, url)] e'.1 <;> simp [cacheScoreMut, h]
  refine ⟨items.map (fun a => searchMutate query loc d (setSourceName name a)), ?_, ?_, ?_, ?_⟩
  · simp only [search_feeds, Bool.false_eq_true, if_false]
    rw [hmapfun, lookup_map_keyfix (cacheScoreMut [(name, url)] query loc d) _ url, hfa]
    simp [cacheScoreMut, hname]
  · exact List.mem_map.2 ⟨a, ha, by simp [searchMutate, hsc]⟩
  · exact (scoreArticle_eq_some hsc).2.2.2.2.2.2
  · rw [(scoreArticle_eq_some hsc).2.2.2.2.2.1]
    rfl

/-- C1 (counterexample): after a fetch that populates the cache and a single
`search_feeds` call served from that cache, the cache entry's article
carries the query-specific scoring fields `keywords_matched` and
`relevance_score` — the cache does hold post-scoring data. -/
theorem C1_counterexample :
    ((search_feeds [("f".data, "u".data)]
        (fetch_feed [] "u".data true 100 3600 (some [artM])).2.1 100 3600
        (fun _ => none) "acme".data 20 false [] none 0).2).lookup "u".data =
      some ([artMS], 100) ∧
    artMS.relevance_score = some 57 ∧ artMS.keywords_matched = some ["acme".data] := by
  refine ⟨?_, rfl, rfl⟩
  simp +decide [search_feeds, fetch_all_feeds, fetch_feed, feedNameFor, searchMutate,
    cacheInsert, setSourceName, scoreArticle, queryKeywords, pySplitWs, splitWsAux,
    pyLower, articleText, keywordsMatched, pyContains, optStr, relevanceScoreInt,
    relevanceValue, searchSourceBoost, recencyScore, highCredSearchSources,
    medCredSearchSources, pyInt, artM, artMS, List.lookup]
  norm_num [Int.tdiv]

theorem C1_cache_mutation_witness :
    ∃ items2 : List Article,
      ((search_feeds [("f".data, "u".data)] [("u".data, ([artM], 50))] 100 3600
        (fun _ => none) "acme".data 20 false [] none 0).2).lookup "u".data =
        some (items2, 50) ∧ artMS ∈ items2 ∧ artMS.relevance_score.isSome = true ∧
      artMS.keywords_matched.isSome = true := by
  refine C1_cache_mutation "f".data "u".data [("u".data, ([artM], 50))] 100 3600
    (fun _ => none) "acme".data 20 none 0 [artM] 50 artM artMS (by decide) (by simp) ?_
  simp +decide [scoreArticle, setSourceName, queryKeywords, pySplitWs, splitWsAux,
    pyLower, articleText, keywordsMatched, pyContains, optStr, relevanceScoreInt,
    relevanceValue, searchSourceBoost, recencyScore, highCredSearchSources,
    medCredSearchSources, pyInt, artM, artMS]
  norm_num [Int.tdiv]



/-- C7 (code bug): a per-alert processing error makes `fetch_google_alerts`
add an `"_errors"` entry, and `search_feeds` then treats that error dict as
a list of articles — iterating its string keys and raising `TypeError` — so
one source's failure aborts the whole aggregation instead of returning the
other sources' results; without the failing alert the same call succeeds. -/
theorem C7_alert_error_aborts_search :
    (search_feeds [] [] 0 3600 (fun _ => none) "acme".data 20 true
        (fetch_google_alerts [("alpha".data, .success [artM]),
          ("beta".data, .procError "boom".data)]) none 0).1 =
      .error "TypeError: str object does not support item assignment".data ∧
    (search_feeds [] [] 0 3600 (fun _ => none) "acme".data 20 true
        (fetch_google_alerts [("alpha".data, .success [artM])]) none 0).1 =
      .ok [artAS] := by
  constructor
  · rfl
  · simp +decide [search_feeds, fetch_all_feeds, fetch_google_alerts, flattenAlerts,
      searchFilterScore, sortByRel, insertByRel, setSourceName, scoreArticle,
      queryKeywords, pySplitWs, splitWsAux, pyLower, articleText, keywordsMatched,
      pyContains, optStr, relevanceScoreInt, relevanceValue, searchSourceBoost,
      recencyScore, highCredSearchSources, medCredSearchSources, pyInt, artM, artAS]
    norm_num [Int.tdiv]

end RSSScraping
